import Mathlib

/-!
Shallow embedding of `scripts/compare_perf.py`.

The script reads two pairs of timing files, reduces each pair by a
pointwise minimum (keeping the faster of the two samples), walks the
baseline/latest pairs computing per-benchmark ratios and running
aggregates, classifies each ratio against fixed thresholds, optionally
posts the collected messages as a GitHub pull-request comment, and
finally asserts that no per-benchmark error occurred and that the mean
ratio is below 1.06.

Modelling conventions: Python floats are modelled as exact rationals;
file reading is external, so `main` takes the four parsed timing lists;
printed lines and external effects are recorded as a trace of
structured events (numeric string formatting such as `:.3f` is
abstracted away — each event carries the exact values being printed);
the HTTP response status of the comment POST is an oracle boolean
`httpOk`; the commit-id lookup in the event-payload file is assumed to
succeed, since no claim depends on it.
-/

namespace ComparePerf

/-- Messages appended to the `messages` list of `main`, carrying the
benchmark index and the percentage `100 * (rel_dur - 1)` that the
script interpolates into the text.  `tooSlow` is the blocking 🚫
message, `slowdown` the non-blocking ⚠️ warning, `speedup` the 🔥
message; `benchSummary` and `footer` are the two lines appended before
sending (lines 122-126). -/
inductive Message where
  | tooSlow (i : Nat) (perc : ℚ)
  | slowdown (i : Nat) (perc : ℚ)
  | speedup (i : Nat) (perc : ℚ)
  | benchSummary (n : Nat) (meanPerc : ℚ)
  | footer
deriving DecidableEq

/-- Observable events of one run, in program order: the per-record
print of line 91, the summary print of line 117, the totals print of
line 118, the pre-send dump of line 128, the HTTP POST of line 32, the
local print of line 35 inside `send_comment`, and the evaluation of
the two final asserts (lines 136 and 139). -/
inductive Event where
  | recordLine (i : Nat) (rel_dur baseline_time latest_time : ℚ)
  | summaryLine (avg mn mx : ℚ)
  | totalsLine (total_baseline total_latest : ℚ)
  | sendingPrint (msgs : List Message)
  | httpPost (pull_request_number : String) (body : List Message)
  | localPrint (body : List Message)
  | assertNoErrors (pass : Bool)
  | assertMeanOk (pass : Bool)
deriving DecidableEq

/-- How a run of `main` terminates: normally, by one of the two final
asserts failing, by the `ZeroDivisionError` of line 110 when no
benchmarks were compared, or by `raise_for_status` on a failed comment
POST. -/
inductive Outcome where
  | success
  | regressionError
  | aggregateRegressionError
  | divisionError
  | notifyError
deriving DecidableEq

/-- The if/elif/elif classification of one benchmark (lines 96-108),
returning the message that iteration appends, if any.  Rational
division is total (`x / 0 = 0`); since the script raises
ZeroDivisionError at line 86 before reaching the classification when
the baseline is zero, `classify` is only consulted about the program
on pairs with a nonzero baseline. -/
def classify (i : Nat) (baseline_time latest_time : ℚ) : Option Message :=
  let rel_dur := latest_time / baseline_time
  let perc := 100 * (rel_dur - 1)
  if latest_time > baseline_time * 1.2 ∧ latest_time - baseline_time > 5 then
    some (Message.tooSlow i perc)
  else if rel_dur > 1.1 then
    some (Message.slowdown i perc)
  else if rel_dur < 0.9 then
    some (Message.speedup i perc)
  else
    none

/-- The accumulators of `main` (lines 67-78) together with the loop
variable `rel_dur` and the trace of events so far.  `rel_dur` is
unassigned in Python until the first iteration; it is initialised to 0
here, but that value is never observed: with zero iterations `main`
stops at the division of line 110 before the summary print. -/
structure LoopState where
  n : Nat
  total_baseline : ℚ
  total_latest : ℚ
  total_rel_dur : ℚ
  min_rel_dur : ℚ
  max_rel_dur : ℚ
  rel_dur : ℚ
  messages : List Message
  errors : Nat
  trace : List Event
deriving DecidableEq

/-- Initial accumulator values (lines 67-78). -/
def initState : LoopState :=
  { n := 0, total_baseline := 0, total_latest := 0, total_rel_dur := 0,
    min_rel_dur := 1, max_rel_dur := 1, rel_dur := 0,
    messages := [], errors := 0, trace := [] }

/-- One iteration of the comparison loop (lines 80-108): bump the
accumulators, print the record line, then run the if/elif/elif
classification, incrementing `errors` only in the first branch.
Rational division is total (`x / 0 = 0`), whereas line 86 of the
script raises ZeroDivisionError on a zero baseline before the record
line is printed; `loopStep` is therefore faithful only on pairs with a
nonzero baseline, and `main` below never runs it on or past the first
zero-baseline pair. -/
def loopStep (s : LoopState) (p : ℚ × ℚ) : LoopState :=
  let baseline_time := p.1
  let latest_time := p.2
  let i := s.n
  let rel_dur := latest_time / baseline_time
  let perc := 100 * (rel_dur - 1)
  let s1 := { s with
    n := s.n + 1,
    total_baseline := s.total_baseline + baseline_time,
    total_latest := s.total_latest + latest_time,
    total_rel_dur := s.total_rel_dur + rel_dur,
    min_rel_dur := min s.min_rel_dur rel_dur,
    max_rel_dur := max s.max_rel_dur rel_dur,
    rel_dur := rel_dur,
    trace := s.trace ++ [Event.recordLine i rel_dur baseline_time latest_time] }
  if latest_time > baseline_time * 1.2 ∧ latest_time - baseline_time > 5 then
    { s1 with errors := s1.errors + 1,
              messages := s1.messages ++ [Message.tooSlow i perc] }
  else if rel_dur > 1.1 then
    { s1 with messages := s1.messages ++ [Message.slowdown i perc] }
  else if rel_dur < 0.9 then
    { s1 with messages := s1.messages ++ [Message.speedup i perc] }
  else
    s1

/-- Pointwise minimum of the two samples of one run (lines 56-65):
zip the two lists and take `min t1 t2` at each position. -/
def reduceTimes (t1 t2 : List ℚ) : List ℚ :=
  (t1.zip t2).map fun p => min p.1 p.2

/-- The baseline/latest pairs the loop of line 80 walks over. -/
def mainPairs (b1 b2 l1 l2 : List ℚ) : List (ℚ × ℚ) :=
  (reduceTimes b1 b2).zip (reduceTimes l1 l2)

/-- Run the comparison loop over a list of pairs. -/
def runLoop (pairs : List (ℚ × ℚ)) : LoopState :=
  pairs.foldl loopStep initState

/-- The loop state after `main` has consumed all four timing lists. -/
def mainState (b1 b2 l1 l2 : List ℚ) : LoopState :=
  runLoop (mainPairs b1 b2 l1 l2)

/-- The mean relative duration of line 110, `total_rel_dur / n`. -/
def mean_rel_dur (s : LoopState) : ℚ :=
  s.total_rel_dur / (s.n : ℚ)

/-- The message list after the two summary lines of lines 122-126 have
been appended. -/
def fullMessages (s : LoopState) : List Message :=
  s.messages ++
    [Message.benchSummary s.n (100 * (mean_rel_dur s - 1)), Message.footer]

/-- Events of `send_comment` (lines 10-36): nothing at all when the
pull-request number is the empty string (lines 17-18), otherwise the
POST followed by the local print of the message (the print of line 35
precedes `raise_for_status` on line 36). -/
def sendCommentTrace (body : List Message) (pull_request_number : String) :
    List Event :=
  if pull_request_number = "" then []
  else [Event.httpPost pull_request_number body, Event.localPrint body]

/-- Whether the notification step aborts the run: a comment was
actually posted (some messages exist and the pull-request number is
nonempty) and the HTTP response was a failure status. -/
def notifyFails (s : LoopState) (pull_request_number : String)
    (httpOk : Bool) : Prop :=
  s.messages ≠ [] ∧ pull_request_number ≠ "" ∧ httpOk = false

instance (s : LoopState) (prn : String) (hOk : Bool) :
    Decidable (notifyFails s prn hOk) := by
  unfold notifyFails
  infer_instance

/-- All events `main` produces before the two final asserts, assuming
at least one benchmark was compared: the record lines, the summary
line of line 117 — which reuses the loop variable `rel_dur` for all
three of its slots — the totals line, and, when any messages were
produced, the pre-send dump and the `send_comment` events. -/
def preVerdictTrace (b1 b2 l1 l2 : List ℚ) (pull_request_number : String) :
    List Event :=
  let s := mainState b1 b2 l1 l2
  let t :=
    s.trace ++
      [Event.summaryLine s.rel_dur s.rel_dur s.rel_dur,
       Event.totalsLine s.total_baseline s.total_latest]
  if s.messages = [] then t
  else
    t ++ [Event.sendingPrint (fullMessages s)] ++
      sendCommentTrace (fullMessages s) pull_request_number

/-- The whole of `main` (lines 45-139) on the four already-parsed
timing lists, returning the event trace and the way the run ends.
If some pair has a zero baseline, the loop raises ZeroDivisionError at
line 86 on the first such pair — after the record lines of the earlier
iterations were printed but before this pair's own record line — so
the run ends there with only those lines in the trace.  When `n = 0`
the division of line 110 raises before the summary print, so only the
(empty) record trace was emitted.  A failed POST raises from
`raise_for_status` after all printing.  Otherwise the two asserts of
lines 136 and 139 run last, in that order, the second only when the
first passed. -/
def main (b1 b2 l1 l2 : List ℚ) (pull_request_number : String)
    (httpOk : Bool) : List Event × Outcome :=
  match (mainPairs b1 b2 l1 l2).findIdx? (fun p => decide (p.1 = 0)) with
  | some k =>
      ((runLoop ((mainPairs b1 b2 l1 l2).take k)).trace,
        Outcome.divisionError)
  | none =>
  let s := mainState b1 b2 l1 l2
  if s.n = 0 then
    (s.trace, Outcome.divisionError)
  else if notifyFails s pull_request_number httpOk then
    (preVerdictTrace b1 b2 l1 l2 pull_request_number, Outcome.notifyError)
  else if s.errors ≠ 0 then
    (preVerdictTrace b1 b2 l1 l2 pull_request_number ++
        [Event.assertNoErrors false],
      Outcome.regressionError)
  else if ¬ (mean_rel_dur s < 1.06) then
    (preVerdictTrace b1 b2 l1 l2 pull_request_number ++
        [Event.assertNoErrors true, Event.assertMeanOk false],
      Outcome.aggregateRegressionError)
  else
    (preVerdictTrace b1 b2 l1 l2 pull_request_number ++
        [Event.assertNoErrors true, Event.assertMeanOk true],
      Outcome.success)

/-- The verdict the two final asserts alone determine (lines 136-139). -/
def thresholdOutcome (s : LoopState) : Outcome :=
  if s.errors ≠ 0 then Outcome.regressionError
  else if ¬ (mean_rel_dur s < 1.06) then Outcome.aggregateRegressionError
  else Outcome.success

/-- The record line printed for one indexed pair. -/
def recordEvent (q : Nat × (ℚ × ℚ)) : Event :=
  Event.recordLine q.1 (q.2.2 / q.2.1) q.2.1 q.2.2

/-- Recogniser for per-record print events. -/
def Event.isRecordLine : Event → Bool
  | Event.recordLine _ _ _ _ => true
  | _ => false

/-- Recogniser for HTTP POST events. -/
def Event.isHttpPost : Event → Bool
  | Event.httpPost _ _ => true
  | _ => false

/-- The relative duration of the last pair of a list, or a dummy value
on the empty list (the loop variable `rel_dur` after the loop). -/
def lastRatio (ps : List (ℚ × ℚ)) : ℚ :=
  (ps.getLast?.getD (1, 1)).2 / (ps.getLast?.getD (1, 1)).1

theorem loopStep_n (s : LoopState) (p : ℚ × ℚ) : (loopStep s p).n = s.n + 1 := by
  unfold loopStep
  dsimp only
  split_ifs <;> rfl

theorem loopStep_trace (s : LoopState) (p : ℚ × ℚ) :
    (loopStep s p).trace = s.trace ++ [recordEvent (s.n, p)] := by
  unfold loopStep recordEvent
  dsimp only
  split_ifs <;> rfl

theorem loopStep_messages (s : LoopState) (p : ℚ × ℚ) :
    (loopStep s p).messages = s.messages ++ (classify s.n p.1 p.2).toList := by
  unfold loopStep classify
  dsimp only
  split_ifs <;> simp

theorem loopStep_errors (s : LoopState) (p : ℚ × ℚ) :
    (loopStep s p).errors =
      s.errors + (if p.2 > p.1 * 1.2 ∧ p.2 - p.1 > 5 then 1 else 0) := by
  unfold loopStep
  dsimp only
  split_ifs <;> rfl

theorem loopStep_total_baseline (s : LoopState) (p : ℚ × ℚ) :
    (loopStep s p).total_baseline = s.total_baseline + p.1 := by
  unfold loopStep
  dsimp only
  split_ifs <;> rfl

theorem loopStep_total_latest (s : LoopState) (p : ℚ × ℚ) :
    (loopStep s p).total_latest = s.total_latest + p.2 := by
  unfold loopStep
  dsimp only
  split_ifs <;> rfl

theorem loopStep_total_rel_dur (s : LoopState) (p : ℚ × ℚ) :
    (loopStep s p).total_rel_dur = s.total_rel_dur + p.2 / p.1 := by
  unfold loopStep
  dsimp only
  split_ifs <;> rfl

theorem loopStep_rel_dur (s : LoopState) (p : ℚ × ℚ) :
    (loopStep s p).rel_dur = p.2 / p.1 := by
  unfold loopStep
  dsimp only
  split_ifs <;> rfl

theorem foldl_n (ps : List (ℚ × ℚ)) :
    ∀ s : LoopState, (ps.foldl loopStep s).n = s.n + ps.length := by
  induction ps with
  | nil => intro s; simp
  | cons p ps ih =>
      intro s
      rw [List.foldl_cons, ih, loopStep_n]
      simp
      omega

theorem foldl_trace (ps : List (ℚ × ℚ)) :
    ∀ s : LoopState,
      (ps.foldl loopStep s).trace =
        s.trace ++ (ps.enumFrom s.n).map recordEvent := by
  induction ps with
  | nil => intro s; simp
  | cons p ps ih =>
      intro s
      rw [List.foldl_cons, ih, loopStep_trace, loopStep_n]
      simp [List.enumFrom_cons]

theorem foldl_messages (ps : List (ℚ × ℚ)) :
    ∀ s : LoopState,
      (ps.foldl loopStep s).messages =
        s.messages ++
          (ps.enumFrom s.n).filterMap fun q => classify q.1 q.2.1 q.2.2 := by
  induction ps with
  | nil => intro s; simp
  | cons p ps ih =>
      intro s
      rw [List.foldl_cons, ih, loopStep_messages, loopStep_n]
      cases h : classify s.n p.1 p.2 <;>
        simp [List.enumFrom_cons, List.filterMap_cons, h]

theorem foldl_total_baseline (ps : List (ℚ × ℚ)) :
    ∀ s : LoopState,
      (ps.foldl loopStep s).total_baseline =
        s.total_baseline + (ps.map Prod.fst).sum := by
  induction ps with
  | nil => intro s; simp
  | cons p ps ih =>
      intro s
      rw [List.foldl_cons, ih, loopStep_total_baseline]
      simp
      ring

theorem foldl_total_latest (ps : List (ℚ × ℚ)) :
    ∀ s : LoopState,
      (ps.foldl loopStep s).total_latest =
        s.total_latest + (ps.map Prod.snd).sum := by
  induction ps with
  | nil => intro s; simp
  | cons p ps ih =>
      intro s
      rw [List.foldl_cons, ih, loopStep_total_latest]
      simp
      ring

theorem foldl_rel_dur_concat (ps : List (ℚ × ℚ)) (q : ℚ × ℚ) (s : LoopState) :
    ((ps ++ [q]).foldl loopStep s).rel_dur = q.2 / q.1 := by
  rw [List.foldl_append]
  simp [loopStep_rel_dur]

theorem mainState_n (b1 b2 l1 l2 : List ℚ) :
    (mainState b1 b2 l1 l2).n = (mainPairs b1 b2 l1 l2).length := by
  rw [mainState, runLoop, foldl_n]
  simp [initState]

theorem runLoop_trace (ps : List (ℚ × ℚ)) :
    (runLoop ps).trace = (ps.enumFrom 0).map recordEvent := by
  rw [runLoop, foldl_trace]
  simp [initState]

theorem mainState_trace (b1 b2 l1 l2 : List ℚ) :
    (mainState b1 b2 l1 l2).trace =
      ((mainPairs b1 b2 l1 l2).enumFrom 0).map recordEvent := by
  rw [mainState]
  exact runLoop_trace _

theorem findIdx_zero_baseline_none (ps : List (ℚ × ℚ))
    (hz : ∀ p ∈ ps, p.1 ≠ 0) :
    ps.findIdx? (fun p => decide (p.1 = 0)) = none := by
  rw [List.findIdx?_eq_none_iff]
  intro p hp
  simp [hz p hp]

theorem mainState_messages (b1 b2 l1 l2 : List ℚ) :
    (mainState b1 b2 l1 l2).messages =
      ((mainPairs b1 b2 l1 l2).enumFrom 0).filterMap
        fun q => classify q.1 q.2.1 q.2.2 := by
  rw [mainState, runLoop, foldl_messages]
  simp [initState]

theorem mainState_total_baseline (b1 b2 l1 l2 : List ℚ) :
    (mainState b1 b2 l1 l2).total_baseline =
      ((mainPairs b1 b2 l1 l2).map Prod.fst).sum := by
  rw [mainState, runLoop, foldl_total_baseline]
  simp [initState]

theorem mainState_total_latest (b1 b2 l1 l2 : List ℚ) :
    (mainState b1 b2 l1 l2).total_latest =
      ((mainPairs b1 b2 l1 l2).map Prod.snd).sum := by
  rw [mainState, runLoop, foldl_total_latest]
  simp [initState]

theorem mainState_rel_dur (b1 b2 l1 l2 : List ℚ)
    (h : mainPairs b1 b2 l1 l2 ≠ []) :
    (mainState b1 b2 l1 l2).rel_dur = lastRatio (mainPairs b1 b2 l1 l2) := by
  rcases List.eq_nil_or_concat (mainPairs b1 b2 l1 l2) with h0 | ⟨ps, q, hpq⟩
  · exact absurd h0 h
  · rw [mainState, runLoop, hpq, List.concat_eq_append, foldl_rel_dur_concat,
      lastRatio, List.getLast?_concat]
    rfl

theorem mainPairs_length (b1 b2 l1 l2 : List ℚ) :
    (mainPairs b1 b2 l1 l2).length =
      min (min b1.length b2.length) (min l1.length l2.length) := by
  simp [mainPairs, reduceTimes, List.length_zip]

theorem countP_mainState_trace (b1 b2 l1 l2 : List ℚ) :
    (mainState b1 b2 l1 l2).trace.countP Event.isRecordLine =
      (mainState b1 b2 l1 l2).n := by
  rw [mainState_trace, mainState_n, List.countP_map]
  have : (Event.isRecordLine ∘ recordEvent) = fun _ : ℕ × (ℚ × ℚ) => true := by
    funext q
    rfl
  rw [this]
  simp [List.countP_true, List.enumFrom_length]

theorem countP_preVerdictTrace (b1 b2 l1 l2 : List ℚ) (prn : String) :
    (preVerdictTrace b1 b2 l1 l2 prn).countP Event.isRecordLine =
      (mainState b1 b2 l1 l2).n := by
  unfold preVerdictTrace sendCommentTrace
  dsimp only
  split_ifs <;>
    simp [List.countP_append, List.countP_cons, Event.isRecordLine,
      countP_mainState_trace]

theorem notifyFails_empty_pr (s : LoopState) (hOk : Bool) :
    ¬ notifyFails s "" hOk := by
  simp [notifyFails]

theorem sendCommentTrace_empty_pr (body : List Message) :
    sendCommentTrace body "" = [] := by
  simp [sendCommentTrace]

theorem preVerdictTrace_empty_pr_no_post (b1 b2 l1 l2 : List ℚ) :
    ((preVerdictTrace b1 b2 l1 l2 "").all fun e => ! e.isHttpPost) = true := by
  rw [List.all_eq_true]
  intro e he
  unfold preVerdictTrace at he
  dsimp only at he
  rw [mainState_trace, sendCommentTrace_empty_pr] at he
  split_ifs at he with h1
  · rcases List.mem_append.mp he with h | h
    · obtain ⟨q, -, rfl⟩ := List.mem_map.mp h
      rfl
    · simp only [List.mem_cons, List.not_mem_nil, or_false] at h
      rcases h with rfl | rfl <;> rfl
  · rw [List.append_nil] at he
    rcases List.mem_append.mp he with h | h
    · rcases List.mem_append.mp h with h2 | h2
      · obtain ⟨q, -, rfl⟩ := List.mem_map.mp h2
        rfl
      · simp only [List.mem_cons, List.not_mem_nil, or_false] at h2
        rcases h2 with rfl | rfl <;> rfl
    · simp only [List.mem_singleton] at h
      subst h
      rfl

/-- C2: for a positive baseline, a hard regression — the error count
incremented by one and the blocking message carrying the percentage
`100 * (ratio - 1)` appended — occurs exactly when both
`latest_time > baseline_time * 1.2` and
`latest_time - baseline_time > 5.0` hold; in particular baseline 100,
latest 121 is a hard regression, while baseline 1, latest 1.3 is not
and yields only the soft warning (its ratio 1.3 exceeds 1.1). -/
theorem C2_hard_regression_iff (i : Nat) (baseline_time latest_time : ℚ)
    (s : LoopState) (_hb : 0 < baseline_time) :
    (classify i baseline_time latest_time =
        some (Message.tooSlow i (100 * (latest_time / baseline_time - 1))) ↔
      (latest_time > baseline_time * 1.2 ∧
        latest_time - baseline_time > 5)) ∧
    ((loopStep s (baseline_time, latest_time)).errors = s.errors + 1 ↔
      (latest_time > baseline_time * 1.2 ∧
        latest_time - baseline_time > 5)) ∧
    classify 0 100 121 = some (Message.tooSlow 0 21) ∧
    classify 1 1 1.3 = some (Message.slowdown 1 30) := by
  refine ⟨?_, ?_, ?_, ?_⟩
  · unfold classify
    dsimp only
    split_ifs with h1 h2 h3 <;> simp [h1]
  · rw [loopStep_errors]
    dsimp only
    split_ifs with h1 <;> simp [h1]
  · norm_num [classify]
  · norm_num [classify]

/-- C2 witness: the concrete hard-regression example evaluated through
the theorem. -/
theorem C2_hard_regression_iff_witness :
    classify 0 100 121 = some (Message.tooSlow 0 21) :=
  (C2_hard_regression_iff 0 100 121 initState (by norm_num)).2.2.1

/-- C3: classification boundaries are strict: a ratio of exactly 1.1
never yields the soft-slowdown warning, a ratio of exactly 0.9 never
yields the speedup message, and a ratio within [0.9, 1.1] that is not a
hard regression yields no message at all. -/
theorem C3_strict_boundaries (i : Nat) (baseline_time latest_time : ℚ)
    (_hb : 0 < baseline_time) :
    (latest_time / baseline_time = 1.1 →
      ∀ p, classify i baseline_time latest_time ≠
        some (Message.slowdown i p)) ∧
    (latest_time / baseline_time = 0.9 →
      ∀ p, classify i baseline_time latest_time ≠
        some (Message.speedup i p)) ∧
    (0.9 ≤ latest_time / baseline_time →
      latest_time / baseline_time ≤ 1.1 →
      ¬ (latest_time > baseline_time * 1.2 ∧
          latest_time - baseline_time > 5) →
      classify i baseline_time latest_time = none) := by
  unfold classify
  dsimp only
  refine ⟨?_, ?_, ?_⟩
  · intro hr p
    split_ifs with h1 h2 h3 <;> simp_all
  · intro hr p
    split_ifs with h1 h2 h3 <;> simp_all
  · intro h01 h02 hhard
    split_ifs with h1 h2
    · exact absurd h02 (not_le.mpr h1)
    · exact absurd h01 (not_le.mpr h2)
    · rfl

/-- C3 witness: the boundary ratio 11/10 = 1.1 produces no message. -/
theorem C3_strict_boundaries_witness : classify 0 10 11 = none :=
  (C3_strict_boundaries 0 10 11 (by norm_num)).2.2 (by norm_num)
    (by norm_num) (by rintro ⟨h1, -⟩; norm_num at h1)

/-- C8: the pairwise reduction has the length of the shorter input
(zip semantics, so on equal lengths the same length), and its element
at every in-bounds index `i` is `min (A.get i) (B.get i)`. -/
theorem C8_reduce_pointwise_min (A B : List ℚ) :
    (reduceTimes A B).length = min A.length B.length ∧
    ∀ i, (hA : i < A.length) → (hB : i < B.length) →
      (reduceTimes A B)[i]? = some (min (A.get ⟨i, hA⟩) (B.get ⟨i, hB⟩)) := by
  constructor
  · simp [reduceTimes]
  · intro i hA hB
    have hz : i < (A.zip B).length := by
      rw [List.length_zip]
      omega
    rw [reduceTimes, List.getElem?_map, List.getElem?_eq_getElem hz]
    simp [List.getElem_zip]

/-- C8 witness: reducing [3, 5] with [4, 2] puts min 5 2 = 2 at index 1. -/
theorem C8_reduce_pointwise_min_witness :
    (reduceTimes [3, 5] [4, 2])[1]? = some 2 := by
  have h := (C8_reduce_pointwise_min [3, 5] [4, 2]).2 1 (by norm_num)
    (by norm_num)
  simpa using h

/-- C10: the message list the loop builds is exactly the filterMap of
the single-option classification over the indexed benchmark pairs, so
each benchmark contributes at most one message and, before the two
summary lines are appended, the list has at most one entry per
compared benchmark. -/
theorem C10_at_most_one_message (b1 b2 l1 l2 : List ℚ) :
    (mainState b1 b2 l1 l2).messages =
      ((mainPairs b1 b2 l1 l2).enumFrom 0).filterMap
        (fun q => classify q.1 q.2.1 q.2.2) ∧
    (mainState b1 b2 l1 l2).messages.length ≤ (mainState b1 b2 l1 l2).n := by
  refine ⟨mainState_messages b1 b2 l1 l2, ?_⟩
  rw [mainState_messages, mainState_n]
  calc (((mainPairs b1 b2 l1 l2).enumFrom 0).filterMap
          fun q => classify q.1 q.2.1 q.2.2).length
      ≤ ((mainPairs b1 b2 l1 l2).enumFrom 0).length :=
        List.length_filterMap_le _ _
    _ = (mainPairs b1 b2 l1 l2).length := List.enumFrom_length

/-- C9 counterexample: with a zero baseline the run crashes at line 86
before printing any record line, so the trace holds zero record lines
although the four input lengths have minimum 1. -/
theorem C9_count_counterexample :
    (main [0] [0] [1] [1] "x" true).1.countP Event.isRecordLine = 0 ∧
    min (min ([0] : List ℚ).length ([0] : List ℚ).length)
      (min ([1] : List ℚ).length ([1] : List ℚ).length) = 1 := by
  constructor
  · norm_num [main, mainPairs, reduceTimes, List.findIdx?_cons, runLoop,
      initState]
  · rfl

/-- C9 amended: provided every reduced baseline time is nonzero (so
the loop completes), the final benchmark count, and the number of
per-record lines in the full trace of a run, both equal the minimum of
the lengths of the four parsed input lists; with a zero baseline the
run crashes mid-loop and prints fewer record lines. -/
theorem C9_count_is_min_of_four (b1 b2 l1 l2 : List ℚ) (prn : String)
    (httpOk : Bool) (hz : ∀ p ∈ mainPairs b1 b2 l1 l2, p.1 ≠ 0) :
    (mainState b1 b2 l1 l2).n =
      min (min b1.length b2.length) (min l1.length l2.length) ∧
    (main b1 b2 l1 l2 prn httpOk).1.countP Event.isRecordLine =
      min (min b1.length b2.length) (min l1.length l2.length) := by
  have hmin : (mainState b1 b2 l1 l2).n =
      min (min b1.length b2.length) (min l1.length l2.length) := by
    rw [mainState_n, mainPairs_length]
  refine ⟨hmin, ?_⟩
  rw [← hmin]
  unfold main
  dsimp only
  rw [findIdx_zero_baseline_none _ hz]
  dsimp only
  split_ifs <;>
    simp [List.countP_append, List.countP_cons, Event.isRecordLine,
      countP_mainState_trace, countP_preVerdictTrace]

/-- C9 witness: one benchmark in each file, counted once. -/
theorem C9_count_is_min_of_four_witness :
    (mainState [2] [2] [3] [3]).n =
      min (min ([2] : List ℚ).length ([2] : List ℚ).length)
        (min ([3] : List ℚ).length ([3] : List ℚ).length) ∧
    (main [2] [2] [3] [3] "x" true).1.countP Event.isRecordLine =
      min (min ([2] : List ℚ).length ([2] : List ℚ).length)
        (min ([3] : List ℚ).length ([3] : List ℚ).length) :=
  C9_count_is_min_of_four [2] [2] [3] [3] "x" true
    (by norm_num [mainPairs, reduceTimes])

/-- C6: with zero benchmarks after reduction, the run dies with the
division error of line 110; its trace is empty, so in particular
neither verdict assertion was evaluated. -/
theorem C6_empty_fails_division (b1 b2 l1 l2 : List ℚ) (prn : String)
    (httpOk : Bool) (h : mainPairs b1 b2 l1 l2 = []) :
    main b1 b2 l1 l2 prn httpOk = ([], Outcome.divisionError) := by
  have hs : mainState b1 b2 l1 l2 = initState := by
    rw [mainState, runLoop, h]
    rfl
  unfold main
  dsimp only
  rw [h, hs]
  simp [initState, List.findIdx?_nil]

/-- C6 witness: an empty first baseline file gives zero pairs and the
division-error outcome. -/
theorem C6_empty_fails_division_witness :
    main [] [1] [1] [1] "x" true = ([], Outcome.divisionError) :=
  C6_empty_fails_division [] [1] [1] [1] "x" true
    (by simp [mainPairs, reduceTimes])

/-- C1 counterexample: with a zero baseline (a legal timing in the
data model) the run fails via the line-86 ZeroDivisionError although
the error count is zero and the mean trigger does not hold, so the
claimed equivalence is false as stated over all inputs. -/
theorem C1_fail_counterexample :
    (main [0] [0] [1] [1] "x" true).2 ≠ Outcome.success ∧
    ¬ (0 < (mainState [0] [0] [1] [1]).errors ∨
        1.06 ≤ mean_rel_dur (mainState [0] [0] [1] [1])) := by
  constructor
  · norm_num [main, mainPairs, reduceTimes, List.findIdx?_cons]
    decide
  · norm_num [mainState, runLoop, mainPairs, reduceTimes, loopStep,
      initState, mean_rel_dur]

/-- C1 amended: once every reduced baseline time is nonzero (so the
per-record division of line 86 cannot raise), at least one benchmark
is compared, and the notification step does not abort the run, the run
fails exactly when the per-item error count is positive or the mean
relative duration is at least 1.06; in particular an aggregate-only
drift of at least 6% fails even with a zero error count. -/
theorem C1_fail_iff_thresholds (b1 b2 l1 l2 : List ℚ) (prn : String)
    (httpOk : Bool) (hz : ∀ p ∈ mainPairs b1 b2 l1 l2, p.1 ≠ 0)
    (hn : (mainState b1 b2 l1 l2).n ≠ 0)
    (hok : ¬ notifyFails (mainState b1 b2 l1 l2) prn httpOk) :
    (main b1 b2 l1 l2 prn httpOk).2 ≠ Outcome.success ↔
      0 < (mainState b1 b2 l1 l2).errors ∨
        1.06 ≤ mean_rel_dur (mainState b1 b2 l1 l2) := by
  unfold main
  dsimp only
  rw [findIdx_zero_baseline_none _ hz]
  dsimp only
  rw [if_neg hn, if_neg hok]
  split_ifs with h1 h2
  · exact iff_of_true (by simp) (Or.inl (Nat.pos_of_ne_zero h1))
  · refine iff_of_false (by simp) ?_
    push_neg
    exact ⟨by omega, h2⟩
  · exact iff_of_true (by simp) (Or.inr (not_lt.mp h2))

/-- C1 witness: every ratio is 1.07, below every per-item threshold,
yet the mean 1.07 ≥ 1.06 makes the run fail. -/
theorem C1_fail_iff_thresholds_witness :
    (main [100] [100] [107] [107] "x" true).2 ≠ Outcome.success ↔
      0 < (mainState [100] [100] [107] [107]).errors ∨
        1.06 ≤ mean_rel_dur (mainState [100] [100] [107] [107]) :=
  C1_fail_iff_thresholds [100] [100] [107] [107] "x" true
    (by norm_num [mainPairs, reduceTimes])
    (by norm_num [mainState, runLoop, mainPairs, reduceTimes, loopStep,
      initState])
    (by simp [notifyFails])

/-- C4: the reporter trace starts with one line per record carrying its
index, ratio and raw baseline/latest values, followed by the summary
line whose Average, Min and Max slots all carry the ratio of the last
record (the loop's final `rel_dur`), not the tracked aggregates,
followed by the totals line with the two sums. -/
theorem C4_reporter_last_ratio (b1 b2 l1 l2 : List ℚ) (prn : String)
    (h : mainPairs b1 b2 l1 l2 ≠ []) :
    ∃ rest : List Event,
      preVerdictTrace b1 b2 l1 l2 prn =
        ((mainPairs b1 b2 l1 l2).enumFrom 0).map recordEvent ++
          [Event.summaryLine (lastRatio (mainPairs b1 b2 l1 l2))
              (lastRatio (mainPairs b1 b2 l1 l2))
              (lastRatio (mainPairs b1 b2 l1 l2)),
           Event.totalsLine ((mainPairs b1 b2 l1 l2).map Prod.fst).sum
             ((mainPairs b1 b2 l1 l2).map Prod.snd).sum] ++ rest := by
  unfold preVerdictTrace
  dsimp only
  rw [mainState_trace, mainState_rel_dur b1 b2 l1 l2 h,
    mainState_total_baseline, mainState_total_latest]
  split_ifs with h1
  · exact ⟨[], (List.append_nil _).symm⟩
  · exact ⟨[Event.sendingPrint (fullMessages (mainState b1 b2 l1 l2))] ++
      sendCommentTrace (fullMessages (mainState b1 b2 l1 l2)) prn,
      (List.append_assoc _ _ _)⟩

/-- C4 witness: one record with baseline 2 and latest 3. -/
theorem C4_reporter_last_ratio_witness :
    ∃ rest : List Event,
      preVerdictTrace [2] [2] [3] [3] "" =
        ((mainPairs [2] [2] [3] [3]).enumFrom 0).map recordEvent ++
          [Event.summaryLine (lastRatio (mainPairs [2] [2] [3] [3]))
              (lastRatio (mainPairs [2] [2] [3] [3]))
              (lastRatio (mainPairs [2] [2] [3] [3])),
           Event.totalsLine ((mainPairs [2] [2] [3] [3]).map Prod.fst).sum
             ((mainPairs [2] [2] [3] [3]).map Prod.snd).sum] ++ rest :=
  C4_reporter_last_ratio [2] [2] [3] [3] ""
    (by simp [mainPairs, reduceTimes])

/-- C5: when the run ends in either regression verdict, its trace is
the complete pre-verdict trace — all record lines, the summary and
totals lines, and any notification events — followed only by the
assert evaluations, so the failure is raised last. -/
theorem C5_fail_after_output (b1 b2 l1 l2 : List ℚ) (prn : String)
    (httpOk : Bool) :
    ((main b1 b2 l1 l2 prn httpOk).2 = Outcome.regressionError →
      (main b1 b2 l1 l2 prn httpOk).1 =
        preVerdictTrace b1 b2 l1 l2 prn ++ [Event.assertNoErrors false]) ∧
    ((main b1 b2 l1 l2 prn httpOk).2 = Outcome.aggregateRegressionError →
      (main b1 b2 l1 l2 prn httpOk).1 =
        preVerdictTrace b1 b2 l1 l2 prn ++
          [Event.assertNoErrors true, Event.assertMeanOk false]) := by
  unfold main
  dsimp only
  split
  · simp
  · split_ifs <;> simp

/-- C5 witness: a run with a hard regression ends with the full
pre-verdict trace followed by the failed assert. -/
theorem C5_fail_after_output_witness :
    (main [1] [1] [10] [10] "" true).1 =
      preVerdictTrace [1] [1] [10] [10] "" ++ [Event.assertNoErrors false] :=
  (C5_fail_after_output [1] [1] [10] [10] "" true).1
    (by norm_num [main, mainState, runLoop, mainPairs, reduceTimes, loopStep,
      initState, notifyFails, mean_rel_dur, List.findIdx?_cons,
      List.findIdx?_nil])

/-- C7 counterexample: with the empty pull-request identifier and a
zero baseline the run fails with the division error even though the
threshold verdict alone would be success, so success or failure is not
determined purely by the thresholds on every input. -/
theorem C7_threshold_counterexample :
    (main [0] [0] [1] [1] "" true).2 = Outcome.divisionError ∧
    thresholdOutcome (mainState [0] [0] [1] [1]) = Outcome.success := by
  constructor
  · norm_num [main, mainPairs, reduceTimes, List.findIdx?_cons]
  · norm_num [thresholdOutcome, mainState, runLoop, mainPairs, reduceTimes,
      loopStep, initState, mean_rel_dur]

/-- C7 amended: with an empty pull-request identifier no HTTP POST
appears in the trace and the run is entirely independent of the HTTP
oracle; provided every reduced baseline time is nonzero (so the
line-86 division cannot raise) and at least one benchmark was
compared, the outcome is exactly the verdict the two threshold asserts
determine. -/
theorem C7_empty_pr_no_http (b1 b2 l1 l2 : List ℚ) (httpOk : Bool) :
    ((main b1 b2 l1 l2 "" httpOk).1.all fun e => ! e.isHttpPost) = true ∧
    main b1 b2 l1 l2 "" httpOk = main b1 b2 l1 l2 "" true ∧
    ((∀ p ∈ mainPairs b1 b2 l1 l2, p.1 ≠ 0) →
      (mainState b1 b2 l1 l2).n ≠ 0 →
      (main b1 b2 l1 l2 "" httpOk).2 =
        thresholdOutcome (mainState b1 b2 l1 l2)) := by
  refine ⟨?_, ?_, ?_⟩
  · unfold main
    dsimp only
    split
    · rw [List.all_eq_true]
      intro e he
      rw [runLoop_trace] at he
      obtain ⟨q, -, rfl⟩ := List.mem_map.mp he
      rfl
    · split_ifs with h1 h2
      · rw [List.all_eq_true]
        intro e he
        rw [mainState_trace] at he
        obtain ⟨q, -, rfl⟩ := List.mem_map.mp he
        rfl
      · exact absurd h2 (notifyFails_empty_pr _ _)
      · rw [List.all_append, preVerdictTrace_empty_pr_no_post]
        rfl
      · rw [List.all_append, preVerdictTrace_empty_pr_no_post]
        rfl
      · rw [List.all_append, preVerdictTrace_empty_pr_no_post]
        rfl
  · unfold main
    dsimp only
    split
    · rfl
    · simp [notifyFails]
  · intro hz hn
    unfold main thresholdOutcome
    dsimp only
    rw [findIdx_zero_baseline_none _ hz]
    dsimp only
    rw [if_neg hn, if_neg (notifyFails_empty_pr _ httpOk)]
    split_ifs <;> rfl

/-- C7 witness: a run with no messages and the oracle reporting HTTP
failure still ends with the threshold verdict. -/
theorem C7_empty_pr_no_http_witness :
    (main [1] [1] [1] [1] "" false).2 =
      thresholdOutcome (mainState [1] [1] [1] [1]) :=
  (C7_empty_pr_no_http [1] [1] [1] [1] false).2.2
    (by norm_num [mainPairs, reduceTimes])
    (by norm_num [mainState, runLoop, mainPairs, reduceTimes, loopStep,
      initState])

end ComparePerf
